import Mathlib

/-!
Verification development for the bot-moderCT repository (src/bot_cloner.py and
src/bot_limpeza.py).

The Python source is shallowly embedded:
- the module top level of bot_limpeza.py and the reordering block of
  criar_cargos_slash are modelled as statement lists with explicit
  name-resolution (uses/defines), since the claims about them concern Python
  NameError behaviour;
- the cloning pipeline of bot_cloner.py is modelled as pure functions that
  return the trace of remote calls (reads, destination-mutating creates,
  user-facing messages) issued for a given world of remote outcomes.
-/

namespace BotModerCT

/-! ## Python name-resolution model

A module-level (or block-level) Python statement, abstracted to the global
names it reads, the names its execution binds, and two tags used by the
claims: whether the statement registers a slash command, and whether it is
the edit_role_positions call. Evaluating a statement first resolves every
name it uses; an unresolved name raises NameError and the statement does not
execute. -/
structure PyStmt where
  src : String
  uses : List String
  defines : List String
  regCmd : Bool
  editCall : Bool
deriving DecidableEq

/-- Plain statement: binds `d` after reading `u`. -/
def stP (s : String) (u d : List String) : PyStmt := ⟨s, u, d, false, false⟩

/-- Command-registration statement (a decorated handler definition or an
add_command call). -/
def stReg (s : String) (u d : List String) : PyStmt := ⟨s, u, d, true, false⟩

/-- The edit_role_positions call statement. -/
def stEdit (s : String) (u : List String) : PyStmt := ⟨s, u, [], false, true⟩

/-- Sequential execution of a statement list under an environment of bound
names. Returns the list of statements that executed and, if a statement used
an unresolved name, that name (the NameError). Later statements after a
NameError never execute. -/
def runStmts (env : List String) : List PyStmt → List PyStmt × Option String
  | [] => ([], none)
  | s :: rest =>
    match s.uses.find? (fun n => !(env.contains n)) with
    | some n => ([], some n)
    | none =>
      let res := runStmts (env ++ s.defines) rest
      (s :: res.fst, res.snd)

/-- Python builtin names available to every statement. -/
def pyBuiltins : List String :=
  ["print", "str", "int", "len", "enumerate", "open", "isinstance", "super"]

/-- The module top level of src/bot_limpeza.py, statement by statement, in
source order. Line 20 is the statement bot.run(TOKEN); the name bot is only
bound at line 94 by the statement bot = ModerationBot(intents=intents). -/
def botLimpezaTopLevel : List PyStmt :=
  [ stP "import discord" [] ["discord"]
  , stP "from discord.ext import commands" [] ["commands"]
  , stP "from discord import app_commands" [] ["app_commands"]
  , stP "import os" [] ["os"]
  , stP "import json" [] ["json"]
  , stP "from typing import Dict, List, Any" [] ["Dict", "List", "Any"]
  , stP "from pathlib import Path" [] ["Path"]
  , stP "intents = discord.Intents.default()" ["discord"] ["intents"]
  , stP "intents.message_content = True" ["intents"] []
  , stP "intents.guilds = True" ["intents"] []
  , stP "intents.messages = True" ["intents"] []
  , stP "intents.members = True" ["intents"] []
  , stP "TOKEN = os.getenv(DISCORD_TOKEN)" ["os"] ["TOKEN"]
  , stP "bot.run(TOKEN)  -- line 20" ["bot", "TOKEN"] []
  , stP "PRESET_FILE = str(Path(file).parent / role_presets.json)" ["str", "Path"] ["PRESET_FILE"]
  , stP "def load_presets" [] ["load_presets"]
  , stP "def save_presets" [] ["save_presets"]
  , stP "class ModerationBot(commands.Bot)" ["commands", "discord", "app_commands"] ["ModerationBot"]
  , stP "bot = ModerationBot(intents=intents)  -- line 94" ["ModerationBot", "intents"] ["bot"]
  , stReg "decorated def criar_cargos_slash" ["bot", "app_commands", "discord"] ["criar_cargos_slash"]
  , stP "preset_group = app_commands.Group(...)" ["app_commands"] ["preset_group"]
  , stReg "bot.tree.add_command(preset_group)" ["bot", "preset_group"] []
  , stReg "decorated def preset_listar_slash" ["preset_group", "app_commands", "discord"] ["preset_listar_slash"]
  , stReg "decorated def preset_salvar_slash" ["preset_group", "app_commands", "discord"] ["preset_salvar_slash"]
  , stReg "decorated def preset_usar_slash" ["preset_group", "app_commands", "discord"] ["preset_usar_slash"]
  , stReg "decorated def sync_slash" ["bot", "app_commands", "discord"] ["sync_slash"]
  , stReg "decorated def limpar_slash" ["bot", "app_commands", "discord", "int"] ["limpar_slash"]
  , stReg "decorated def apagar_canais_slash" ["bot", "app_commands", "discord"] ["apagar_canais_slash"]
  , stReg "decorated def apagar_cargos_slash" ["bot", "app_commands", "discord"] ["apagar_cargos_slash"]
  , stP "if TOKEN is None ... else bot.run(TOKEN)" ["TOKEN", "print", "bot", "discord"] []
  ]

/-- Result of importing/running bot_limpeza.py at module level. -/
def botLimpezaRun : List PyStmt × Option String :=
  runStmts pyBuiltins botLimpezaTopLevel

/-- Names in scope inside criar_cargos_slash at the start of the hierarchy
reordering block (src/bot_limpeza.py lines 138-173), assuming the command was
invoked and at least one role was created: builtins, the module globals of
bot_limpeza.py, and the function locals bound so far. The name nome is a
parameter of preset_salvar_slash and preset_usar_slash only; it is bound
neither as a local of criar_cargos_slash nor at module level. -/
def criarCargosScope : List String :=
  pyBuiltins ++
  ["discord", "commands", "app_commands", "os", "json", "Dict", "List",
   "Any", "Path", "intents", "TOKEN", "PRESET_FILE", "load_presets",
   "save_presets", "ModerationBot", "bot", "criar_cargos_slash",
   "preset_group", "preset_listar_slash", "preset_salvar_slash",
   "preset_usar_slash", "sync_slash", "limpar_slash",
   "apagar_canais_slash", "apagar_cargos_slash"] ++
  ["interaction", "lista_cargos", "guild", "role_names", "created_roles",
   "failed_roles", "name", "new_role", "reorder_success"]

/-- The body of the try block of the reordering step of criar_cargos_slash
(src/bot_limpeza.py lines 143-173), statement by statement. The final
statement is the edit_role_positions call at line 173; Python evaluates its
arguments, including the reason f-string which reads the name nome, before
the call is made. -/
def criarCargosReorderBlock : List PyStmt :=
  [ stP "roles_to_reorder = guild.roles" ["guild"] ["roles_to_reorder"]
  , stP "bot_role_index = roles_to_reorder.index(guild.me.top_role)"
      ["roles_to_reorder", "guild"] ["bot_role_index"]
  , stP "roles_to_reorder = [r for r in roles_to_reorder if ...]"
      ["roles_to_reorder", "created_roles"] ["roles_to_reorder"]
  , stP "created_roles.reverse()" ["created_roles"] []
  , stP "insert_position = bot_role_index" ["bot_role_index"] ["insert_position"]
  , stP "for role in created_roles: roles_to_reorder.insert(...)"
      ["created_roles", "roles_to_reorder", "insert_position"] ["role"]
  , stP "new_role_positions = [... for index, role in enumerate(roles_to_reorder)]"
      ["enumerate", "roles_to_reorder"] ["new_role_positions"]
  , stEdit "await guild.edit_role_positions(new_role_positions, reason=f... nome ... interaction.user.name)  -- line 173"
      ["guild", "new_role_positions", "nome", "interaction"]
  ]

/-- Outcome of the reordering step of criar_cargos_slash, as the pair
(reorder_success, edit_role_positions was called, a reordering failure was
appended to failed_roles). The try block at lines 143-173 is run; the except
Exception handler at lines 177-179 catches any NameError, sets
reorder_success = False and records the failure. -/
def criarCargosReorderOutcome : Bool × Bool × Bool :=
  let res := runStmts criarCargosScope criarCargosReorderBlock
  (res.snd.isNone, res.fst.any (fun s => s.editCall), res.snd.isSome)

/-! ## Cloning pipeline model (src/bot_cloner.py)

The pipeline is embedded as pure functions returning the trace of remote
calls issued: source reads (role fetch, channel fetch), destination-mutating
creates, and user-facing followup messages. The outcomes of the remote calls
(HTTP status of the reads, success/Forbidden/other-exception of each create)
are supplied by a CloneWorld value. -/

/-- A role record as returned by GET /guilds/id/roles, with the fields the
code reads: id (int(role[id])), name, permissions, color, hoist, mentionable,
position (role.get(position, 0)), managed (role.get(managed)). -/
structure RoleRec where
  id : Nat
  name : String
  permissions : Nat
  color : Nat
  hoist : Bool
  mentionable : Bool
  position : Int
  managed : Bool
deriving DecidableEq

/-- A permission-overwrite entry as found in channel permission_overwrites:
type (0 = role, 1 = member), id (a string), allow and deny bitmasks. -/
structure OverwriteRec where
  otype : Nat
  oid : String
  allow : Nat
  deny : Nat
deriving DecidableEq

/-- A channel record as returned by GET /guilds/id/channels, with the fields
the code reads: id, type (4 = category, 0 = text, 2 = voice,
5 = announcement, 13 = stage), name, parent_id (optional string), position
(channel.get(position, 0)), permission_overwrites. -/
structure ChanRec where
  id : Nat
  ctype : Nat
  name : String
  parent_id : Option String
  position : Int
  overwrites : List OverwriteRec
deriving DecidableEq

/-- Outcome of one destination-mutating create call: the created object, a
discord.Forbidden error, or any other exception. -/
inductive COutcome where
  | success
  | forbidden
  | otherError
deriving DecidableEq

/-- Result of one authenticated read against the source server: HTTP status
code and, when the status is 200, the decoded body. -/
structure Fetch (α : Type) where
  status : Nat
  data : List α

/-- The environment of one clone invocation: whether bot.get_guild finds the
destination guild, whether the bot holds administrator there, the two source
reads, and the outcome of each create call (keyed by the old id of the record
being cloned). -/
structure CloneWorld where
  guildFound : Bool
  botIsAdmin : Bool
  rolesResp : Fetch RoleRec
  chansResp : Fetch ChanRec
  roleOutcome : Nat → COutcome
  catOutcome : Nat → COutcome
  chanOutcome : Nat → COutcome

/-- User-facing followup messages sent by the pipeline, one constructor per
interaction.followup.send call site of src/bot_cloner.py. -/
inductive Msg where
  | destNotFound
  | noAdminPerm
  | cloneStarting
  | rolesFetchFail (code : Nat)
  | copyingRoles (n : Nat)
  | roleForbidden (name : String)
  | roleError (name : String)
  | rolesDone
  | chansFetchFail (code : Nat)
  | copyingChans (n : Nat)
  | catForbidden (name : String)
  | catError (name : String)
  | chanForbidden (name : String)
  | chanError (name : String)
  | chansDone
  | cloneDone
  | invalidId
deriving DecidableEq

/-- One remote interaction in trace order: a source read, a
destination-mutating create, or a followup message. Create events carry the
record being cloned; channel creates also carry the resolved parent category
handle and the mapped overwrites. -/
inductive Event where
  | fetchRoles (origem : String)
  | fetchChannels (origem : String)
  | createRole (r : RoleRec)
  | createCategory (c : ChanRec) (ow : List (Nat × Nat × Nat))
  | createChannel (c : ChanRec) (parent : Option Nat) (ow : List (Nat × Nat × Nat))
  | send (m : Msg)
deriving DecidableEq

/-- Python str.isdigit for ASCII-digit strings: nonempty and all characters
are digits (src/bot_cloner.py line 183). -/
def pyIsDigit (s : String) : Bool :=
  !s.toList.isEmpty && s.toList.all Char.isDigit

/-- Numeric value of an all-digit string, as computed by Python int(s) once
isdigit has been checked. -/
def pyToNat (s : String) : Nat :=
  s.toList.foldl (fun n c => n * 10 + (c.toNat - 48)) 0

/-- Decimal parse of a nonempty all-digit character list; none models a
ValueError of Python int(). -/
def parseDigits (cs : List Char) : Option Nat :=
  if !cs.isEmpty && cs.all Char.isDigit then
    some (cs.foldl (fun n c => n * 10 + (c.toNat - 48)) 0)
  else none

/-- Python int(s) for strings, modelling the parse the code performs on
snowflake strings: optional sign then digits; anything else raises
ValueError (modelled as none). Surrounding whitespace, which int() would
strip but snowflake strings never carry, is not modelled. -/
def pyIntParse (s : String) : Option Int :=
  match s.toList with
  | [] => none
  | c :: cs =>
    if c = '-' then (parseDigits cs).map (fun n => -(n : Int))
    else if c = '+' then (parseDigits cs).map (fun n => (n : Int))
    else (parseDigits (c :: cs)).map (fun n => (n : Int))

/-- The role filter of clone_roles_user (src/bot_cloner.py lines 109-112):
keep a role only if not role.get(managed) and role name is not @everyone. -/
def pyFilterRoles (roles : List RoleRec) : List RoleRec :=
  roles.filter (fun r => !r.managed && r.name != "@everyone")

/-- Sort key relation of the roles_to_copy.sort call (line 116): ascending
position. -/
def roleLE (a b : RoleRec) : Prop := a.position ≤ b.position

instance : DecidableRel roleLE := fun a b => inferInstanceAs (Decidable (a.position ≤ b.position))

instance : IsTotal RoleRec roleLE := ⟨fun a b => le_total a.position b.position⟩

instance : IsTrans RoleRec roleLE := ⟨fun _ _ _ h h2 => le_trans h h2⟩

/-- Sort key relation of the channels_data.sort call (line 169): ascending
position. -/
def chanLE (a b : ChanRec) : Prop := a.position ≤ b.position

instance : DecidableRel chanLE := fun a b => inferInstanceAs (Decidable (a.position ≤ b.position))

instance : IsTotal ChanRec chanLE := ⟨fun a b => le_total a.position b.position⟩

instance : IsTrans ChanRec chanLE := ⟨fun _ _ _ h h2 => le_trans h h2⟩

/-- The creation loop of clone_roles_user (lines 123-146) over the sorted,
filtered records. h is the next fresh handle for a created role. On success
the pair (old id, new handle) is recorded in role_mapping; on
discord.Forbidden a failure is reported and the loop breaks; on any other
exception a failure is reported and the loop continues. -/
def rolesLoop (out : Nat → COutcome) : List RoleRec → Nat → List Event × List (Nat × Nat)
  | [], _ => ([], [])
  | r :: rs, h =>
    match out r.id with
    | .success =>
      let res := rolesLoop out rs (h + 1)
      (Event.createRole r :: res.fst, (r.id, h) :: res.snd)
    | .forbidden =>
      ([Event.createRole r, Event.send (Msg.roleForbidden r.name)], [])
    | .otherError =>
      let res := rolesLoop out rs h
      (Event.createRole r :: Event.send (Msg.roleError r.name) :: res.fst, res.snd)

/-- clone_roles_user (src/bot_cloner.py lines 96-154): fetch the source
roles with the user token; on a non-200 status report the failure and return
an empty mapping; otherwise filter, sort ascending by position, and run the
creation loop. Returns the event trace and the role_mapping. -/
def clone_roles_user (w : CloneWorld) (origem : String) : List Event × List (Nat × Nat) :=
  if w.rolesResp.status ≠ 200 then
    ([Event.fetchRoles origem, Event.send (Msg.rolesFetchFail w.rolesResp.status)], [])
  else
    let roles_to_copy := List.insertionSort roleLE (pyFilterRoles w.rolesResp.data)
    let res := rolesLoop w.roleOutcome roles_to_copy 0
    (Event.fetchRoles origem :: Event.send (Msg.copyingRoles roles_to_copy.length) ::
       res.fst ++ [Event.send Msg.rolesDone], res.snd)

/-- Lookup of int(overwrite.id) in role_mapping (role_mapping.get at line
188), modelled on the assoc list. -/
def lookupMapping (m : List (Nat × Nat)) (k : Nat) : Option Nat :=
  (m.find? (fun p => p.fst == k)).map (fun p => p.snd)

/-- map_overwrites (src/bot_cloner.py lines 177-201): keep only overwrites
of type 0 (role); skip non-numeric ids with a diagnostic; look the parsed id
up in role_mapping and skip silently when absent; otherwise emit the new
role handle with the original allow/deny bitmasks. The Python dict is
modelled as an assoc list in insertion order. -/
def map_overwrites (rm : List (Nat × Nat)) : List OverwriteRec → List (Nat × Nat × Nat)
  | [] => []
  | o :: os =>
    if o.otype = 0 then
      if pyIsDigit o.oid then
        match lookupMapping rm (pyToNat o.oid) with
        | some h => (h, o.allow, o.deny) :: map_overwrites rm os
        | none => map_overwrites rm os
      else map_overwrites rm os
    else map_overwrites rm os

/-- Parent-category resolution for a non-category channel (src/bot_cloner.py
lines 234-243): a missing or empty (falsy) parent_id yields no parent; a
parent_id that int() cannot parse is a caught ValueError yielding no parent;
a parsed id absent from category_mapping yields no parent. -/
def resolveParent (catMap : List (Nat × Nat)) : Option String → Option Nat
  | none => none
  | some s =>
    if s = "" then none
    else
      match pyIntParse s with
      | none => none
      | some i =>
        match (catMap.find? (fun p => ((p.fst : Int)) == i)).map (fun p => p.snd) with
        | some h => some h
        | none => none

/-- Pass 1 of clone_channels_user (lines 203-226): for every record of type
4 (category), map its overwrites and attempt the create; success records
(old id, new handle) in category_mapping, Forbidden reports and breaks, any
other exception reports and continues. -/
def catsLoop (out : Nat → COutcome) (rm : List (Nat × Nat)) :
    List ChanRec → Nat → List Event × List (Nat × Nat)
  | [], _ => ([], [])
  | c :: cs, h =>
    if c.ctype = 4 then
      match out c.id with
      | .success =>
        let res := catsLoop out rm cs (h + 1)
        (Event.createCategory c (map_overwrites rm c.overwrites) :: res.fst,
         (c.id, h) :: res.snd)
      | .forbidden =>
        ([Event.createCategory c (map_overwrites rm c.overwrites),
          Event.send (Msg.catForbidden c.name)], [])
      | .otherError =>
        let res := catsLoop out rm cs h
        (Event.createCategory c (map_overwrites rm c.overwrites) ::
           Event.send (Msg.catError c.name) :: res.fst, res.snd)
    else
      catsLoop out rm cs h

/-- Channel types for which pass 2 dispatches a create call (lines 257-283):
0 text, 2 voice, 5 announcement (created as text), 13 stage. Other types,
e.g. 15 forum, are skipped by the if/elif chain. -/
def creatableType (t : Nat) : Bool :=
  t == 0 || t == 2 || t == 5 || t == 13

/-- Pass 2 of clone_channels_user (lines 228-292): for every record of type
other than 4, resolve the parent through category_mapping, map the
overwrites, and dispatch a type-specific create for the creatable types;
Forbidden reports and breaks, any other exception reports and continues;
non-creatable types issue no call. -/
def chansLoop (out : Nat → COutcome) (rm catMap : List (Nat × Nat)) :
    List ChanRec → List Event
  | [] => []
  | c :: cs =>
    if c.ctype = 4 then chansLoop out rm catMap cs
    else
      if creatableType c.ctype then
        match out c.id with
        | .success =>
          Event.createChannel c (resolveParent catMap c.parent_id)
              (map_overwrites rm c.overwrites) :: chansLoop out rm catMap cs
        | .forbidden =>
          [Event.createChannel c (resolveParent catMap c.parent_id)
              (map_overwrites rm c.overwrites),
           Event.send (Msg.chanForbidden c.name)]
        | .otherError =>
          Event.createChannel c (resolveParent catMap c.parent_id)
              (map_overwrites rm c.overwrites) ::
            Event.send (Msg.chanError c.name) :: chansLoop out rm catMap cs
      else chansLoop out rm catMap cs

/-- clone_channels_user (src/bot_cloner.py lines 156-294): fetch the source
channels with the user token; on a non-200 status report the failure and
return; otherwise sort ascending by position, run pass 1 (categories) and
then pass 2 (other channels) over the same sorted list. -/
def clone_channels_user (w : CloneWorld) (origem : String)
    (rm : List (Nat × Nat)) : List Event :=
  if w.chansResp.status ≠ 200 then
    [Event.fetchChannels origem, Event.send (Msg.chansFetchFail w.chansResp.status)]
  else
    let sorted := List.insertionSort chanLE w.chansResp.data
    let res := catsLoop w.catOutcome rm sorted 0
    Event.fetchChannels origem :: Event.send (Msg.copyingChans sorted.length) ::
      res.fst ++ chansLoop w.chanOutcome rm res.snd sorted ++ [Event.send Msg.chansDone]

/-- clone_server_user_slash (src/bot_cloner.py lines 53-94): check that
bot.get_guild finds the destination and that the bot holds administrator
there, reporting and returning before any read or write otherwise; then run
role cloning, feed the resulting mapping into channel cloning, and send the
final completion message. -/
def clone_server_user_slash (w : CloneWorld) (origem : String) : List Event :=
  if !w.guildFound then [Event.send Msg.destNotFound]
  else if !w.botIsAdmin then [Event.send Msg.noAdminPerm]
  else
    let roles := clone_roles_user w origem
    Event.send Msg.cloneStarting :: roles.fst ++
      clone_channels_user w origem roles.snd ++ [Event.send Msg.cloneDone]

/-! ## Preset store model (src/bot_limpeza.py lines 25-46) -/

/-- One entry of a preset: the dict with keys name, permissions, color
written by preset_salvar_slash. -/
structure PresetRole where
  name : String
  permissions : Nat
  color : String
deriving DecidableEq

/-- The persisted mapping: preset name to role list (a JSON object, modelled
as an assoc list). -/
def PresetMap : Type := List (String × List PresetRole)

instance : DecidableEq PresetMap := inferInstanceAs (DecidableEq (List (String × List PresetRole)))

/-- load_presets (src/bot_limpeza.py lines 25-41). The persisted file is
Option String (none when os.path.exists is false); json.loads is an external
collaborator passed as jsonLoads, returning none on JSONDecodeError. A
missing file, an empty file, and malformed content all return the empty
mapping; well-formed nonempty content returns the decoded mapping. -/
def load_presets (jsonLoads : String → Option PresetMap) (file : Option String) : PresetMap :=
  match file with
  | none => []
  | some content =>
    if content = "" then []
    else
      match jsonLoads content with
      | some m => m
      | none => []

/-! ## Event classification helpers -/

/-- The event is a read against the source server. -/
def isReadEvent : Event → Bool
  | Event.fetchRoles _ => true
  | Event.fetchChannels _ => true
  | _ => false

/-- The event is a destination-mutating create call. -/
def isCreateEvent : Event → Bool
  | Event.createRole _ => true
  | Event.createCategory _ _ => true
  | Event.createChannel _ _ _ => true
  | _ => false

/-- The event is a category-creation call. -/
def isCatCreate : Event → Bool
  | Event.createCategory _ _ => true
  | _ => false

/-- The event is a non-category channel-creation call. -/
def isChanCreate : Event → Bool
  | Event.createChannel _ _ _ => true
  | _ => false

/-- The event is the report of a failed role fetch. -/
def isRolesFetchFail : Event → Bool
  | Event.send (Msg.rolesFetchFail _) => true
  | _ => false

/-- The record carried by a role-creation event. -/
def getCreateRec : Event → Option RoleRec
  | Event.createRole r => some r
  | _ => none

/-! ## Helper lemmas about the loops -/

/-- The role records carried by the create events of the creation loop form
a sublist of the loop input (the loop walks the input in order, possibly
breaking early on Forbidden). -/
theorem rolesLoop_createRecs_sublist (out : Nat → COutcome) (l : List RoleRec) :
    ∀ h : Nat, List.Sublist ((rolesLoop out l h).fst.filterMap getCreateRec) l := by
  induction l with
  | nil => intro h; simp [rolesLoop]
  | cons r rs ih =>
    intro h
    cases ho : out r.id with
    | success =>
      simp only [rolesLoop, ho, List.filterMap_cons, getCreateRec]
      exact (ih (h + 1)).cons₂ r
    | forbidden =>
      simp only [rolesLoop, ho, List.filterMap_cons, getCreateRec]
      exact (List.nil_sublist rs).cons₂ r
    | otherError =>
      simp only [rolesLoop, ho, List.filterMap_cons, getCreateRec]
      exact (ih h).cons₂ r

/-- The keys recorded in role_mapping by the creation loop form a sublist of
the ids of the loop input. -/
theorem rolesLoop_keys_sublist (out : Nat → COutcome) (l : List RoleRec) :
    ∀ h : Nat, List.Sublist ((rolesLoop out l h).snd.map Prod.fst) (l.map RoleRec.id) := by
  induction l with
  | nil => intro h; simp [rolesLoop]
  | cons r rs ih =>
    intro h
    cases ho : out r.id with
    | success =>
      simp only [rolesLoop, ho, List.map_cons]
      exact (ih (h + 1)).cons₂ r.id
    | forbidden =>
      simp only [rolesLoop, ho, List.map_cons, List.map_nil]
      exact List.nil_sublist _
    | otherError =>
      simp only [rolesLoop, ho, List.map_cons]
      exact (ih h).trans (List.sublist_cons_self r.id (rs.map RoleRec.id))

/-- C8: for every sequence of RoleRecord inputs (and every pattern of create
outcomes), the order in which role-creation calls are issued by
clone_roles_user is non-decreasing in the records source position field. -/
theorem clone_roles_user_creation_sorted (w : CloneWorld) (o : String) :
    List.Pairwise roleLE ((clone_roles_user w o).fst.filterMap getCreateRec) := by
  by_cases hst : w.rolesResp.status = 200
  · have hsorted := List.sorted_insertionSort roleLE (pyFilterRoles w.rolesResp.data)
    have hsub := rolesLoop_createRecs_sublist w.roleOutcome
      (List.insertionSort roleLE (pyFilterRoles w.rolesResp.data)) 0
    simp only [clone_roles_user, hst, ne_eq, not_true_eq_false, if_false,
      List.filterMap_cons, List.filterMap_append, getCreateRec]
    simpa using hsorted.sublist hsub
  · simp [clone_roles_user, hst, getCreateRec]

/-- C4: a role record that is managed or is the @everyone role is filtered
out by clone_roles_user: no create-role call carries a record with its id,
and its id never appears as a key of the resulting role_mapping. The ids of
the fetched records are assumed unique, as the data model states. -/
theorem clone_roles_user_excluded (w : CloneWorld) (o : String) (r : RoleRec)
    (hr : r ∈ w.rolesResp.data)
    (hflag : r.managed = true ∨ r.name = "@everyone")
    (hinj : ∀ a ∈ w.rolesResp.data, ∀ b ∈ w.rolesResp.data, a.id = b.id → a = b) :
    (∀ r2 : RoleRec, Event.createRole r2 ∈ (clone_roles_user w o).fst → r2.id ≠ r.id) ∧
      r.id ∉ (clone_roles_user w o).snd.map Prod.fst := by
  by_cases hst : w.rolesResp.status = 200
  case neg =>
    constructor
    · intro r2 hmem
      simp [clone_roles_user, hst] at hmem
    · simp [clone_roles_user, hst]
  case pos =>
    have hnotin : ∀ r2 : RoleRec,
        r2 ∈ List.insertionSort roleLE (pyFilterRoles w.rolesResp.data) → r2.id ≠ r.id := by
      intro r2 hmem heq
      have h2 : r2 ∈ pyFilterRoles w.rolesResp.data := (List.mem_insertionSort roleLE).mp hmem
      have h3 := List.mem_filter.mp h2
      have h4 : r2 = r := hinj r2 h3.1 r hr heq
      rw [h4] at h3
      rcases hflag with hm | hn
      · simp [hm] at h3
      · simp [hn] at h3
    constructor
    · intro r2 hmem
      simp [clone_roles_user, hst] at hmem
      have hrec : r2 ∈ ((rolesLoop w.roleOutcome
          (List.insertionSort roleLE (pyFilterRoles w.rolesResp.data)) 0).fst.filterMap
            getCreateRec) :=
        List.mem_filterMap.mpr ⟨Event.createRole r2, hmem, rfl⟩
      exact hnotin r2 ((rolesLoop_createRecs_sublist w.roleOutcome _ 0).subset hrec)
    · intro hmem
      simp only [clone_roles_user, hst, ne_eq, not_true_eq_false, if_false] at hmem
      have h5 : r.id ∈ (List.insertionSort roleLE (pyFilterRoles w.rolesResp.data)).map
          RoleRec.id :=
        (rolesLoop_keys_sublist w.roleOutcome _ 0).subset hmem
      obtain ⟨r2, hr2, hid⟩ := List.mem_map.mp h5
      exact hnotin r2 hr2 hid

/-- Events emitted by pass 1 are category creates or category failure
messages: never channel creates, role creates, role-fetch-failure reports or
reads. -/
theorem catsLoop_events_shape (out : Nat → COutcome) (rm : List (Nat × Nat))
    (l : List ChanRec) :
    ∀ h : Nat, ∀ e ∈ (catsLoop out rm l h).fst,
      isChanCreate e = false ∧ getCreateRec e = none ∧ isRolesFetchFail e = false ∧
        isReadEvent e = false := by
  induction l with
  | nil => intro h e he; simp [catsLoop] at he
  | cons c cs ih =>
    intro h e he
    by_cases h4 : c.ctype = 4
    · cases ho : out c.id with
      | success =>
        simp only [catsLoop, h4, ho, if_true, List.mem_cons] at he
        rcases he with he | he
        · subst he; exact ⟨rfl, rfl, rfl, rfl⟩
        · exact ih (h + 1) e he
      | forbidden =>
        simp only [catsLoop, h4, ho, if_true, List.mem_cons,
          List.mem_singleton] at he
        rcases he with he | he
        · subst he; exact ⟨rfl, rfl, rfl, rfl⟩
        · simp at he; subst he; exact ⟨rfl, rfl, rfl, rfl⟩
      | otherError =>
        simp only [catsLoop, h4, ho, if_true, List.mem_cons] at he
        rcases he with he | he | he
        · subst he; exact ⟨rfl, rfl, rfl, rfl⟩
        · subst he; exact ⟨rfl, rfl, rfl, rfl⟩
        · exact ih h e he
    · rw [catsLoop, if_neg h4] at he
      exact ih h e he

/-- Events emitted by pass 2 are channel creates or channel failure
messages: never category creates, role creates, role-fetch-failure reports
or reads. -/
theorem chansLoop_events_shape (out : Nat → COutcome) (rm cm : List (Nat × Nat))
    (l : List ChanRec) :
    ∀ e ∈ chansLoop out rm cm l,
      isCatCreate e = false ∧ getCreateRec e = none ∧ isRolesFetchFail e = false ∧
        isReadEvent e = false := by
  induction l with
  | nil => intro e he; simp [chansLoop] at he
  | cons c cs ih =>
    intro e he
    by_cases h4 : c.ctype = 4
    · rw [chansLoop, if_pos h4] at he
      exact ih e he
    · by_cases hcr : creatableType c.ctype = true
      · cases ho : out c.id with
        | success =>
          simp only [chansLoop, h4, hcr, ho, if_false, if_true, List.mem_cons] at he
          rcases he with he | he
          · subst he; exact ⟨rfl, rfl, rfl, rfl⟩
          · exact ih e he
        | forbidden =>
          simp only [chansLoop, h4, hcr, ho, if_false, if_true, List.mem_cons,
            List.mem_singleton] at he
          rcases he with he | he
          · subst he; exact ⟨rfl, rfl, rfl, rfl⟩
          · simp at he; subst he; exact ⟨rfl, rfl, rfl, rfl⟩
        | otherError =>
          simp only [chansLoop, h4, hcr, ho, if_false, if_true, List.mem_cons] at he
          rcases he with he | he | he
          · subst he; exact ⟨rfl, rfl, rfl, rfl⟩
          · subst he; exact ⟨rfl, rfl, rfl, rfl⟩
          · exact ih e he
      · simp only [chansLoop, h4, if_false] at he
        rw [if_neg hcr] at he
        exact ih e he

/-- Evaluation lemmas for the event predicates on non-create constructors. -/
theorem isCatCreate_send (m : Msg) : isCatCreate (Event.send m) = false := rfl

theorem isChanCreate_send (m : Msg) : isChanCreate (Event.send m) = false := rfl

theorem isCatCreate_fetchChans (s : String) : isCatCreate (Event.fetchChannels s) = false := rfl

theorem isChanCreate_fetchChans (s : String) : isChanCreate (Event.fetchChannels s) = false := rfl

/-- C5: in every clone invocation, every category-creation attempt comes
before every non-category channel-creation attempt: the create events of the
channel-cloner trace are exactly the category creates followed by the
channel creates. -/
theorem clone_channels_user_two_pass (w : CloneWorld) (o : String)
    (rm : List (Nat × Nat)) :
    (clone_channels_user w o rm).filter (fun e => isCatCreate e || isChanCreate e)
      = (clone_channels_user w o rm).filter isCatCreate
          ++ (clone_channels_user w o rm).filter isChanCreate := by
  by_cases hst : w.chansResp.status = 200
  case neg =>
    simp [clone_channels_user, hst, isCatCreate, isChanCreate, List.filter]
  case pos =>
    have hcat := catsLoop_events_shape w.catOutcome rm
      (List.insertionSort chanLE w.chansResp.data) 0
    have hchan := chansLoop_events_shape w.chanOutcome rm
      (catsLoop w.catOutcome rm (List.insertionSort chanLE w.chansResp.data) 0).snd
      (List.insertionSort chanLE w.chansResp.data)
    have fCat : (catsLoop w.catOutcome rm (List.insertionSort chanLE w.chansResp.data)
        0).fst.filter (fun e => isCatCreate e || isChanCreate e)
        = (catsLoop w.catOutcome rm (List.insertionSort chanLE w.chansResp.data)
            0).fst.filter isCatCreate := by
      refine List.filter_congr ?_
      intro e he
      rw [(hcat e he).1, Bool.or_false]
    have fCatChan : (catsLoop w.catOutcome rm (List.insertionSort chanLE
        w.chansResp.data) 0).fst.filter isChanCreate = [] := by
      refine List.filter_eq_nil_iff.mpr ?_
      intro e he
      simp [(hcat e he).1]
    have gChan : (chansLoop w.chanOutcome rm
        (catsLoop w.catOutcome rm (List.insertionSort chanLE w.chansResp.data) 0).snd
        (List.insertionSort chanLE w.chansResp.data)).filter
          (fun e => isCatCreate e || isChanCreate e)
        = (chansLoop w.chanOutcome rm
            (catsLoop w.catOutcome rm (List.insertionSort chanLE w.chansResp.data) 0).snd
            (List.insertionSort chanLE w.chansResp.data)).filter isChanCreate := by
      refine List.filter_congr ?_
      intro e he
      rw [(hchan e he).1, Bool.false_or]
    have gChanCat : (chansLoop w.chanOutcome rm
        (catsLoop w.catOutcome rm (List.insertionSort chanLE w.chansResp.data) 0).snd
        (List.insertionSort chanLE w.chansResp.data)).filter isCatCreate = [] := by
      refine List.filter_eq_nil_iff.mpr ?_
      intro e he
      simp [(hchan e he).1]
    simp only [clone_channels_user, hst, ne_eq, not_true_eq_false, if_false,
      List.filter_cons, List.filter_append, isCatCreate_send, isChanCreate_send,
      isCatCreate_fetchChans, isChanCreate_fetchChans, Bool.or_false,
      Bool.false_or, if_false, List.filter_nil, List.append_nil]
    rw [fCat, fCatChan, gChan, gChanCat]
    simp

/-- The channel-cloning phase issues no role-creation call and never emits
the role-fetch-failure report; it always begins by fetching the source
channels. -/
theorem clone_channels_user_no_role_events (w : CloneWorld) (o : String)
    (rm : List (Nat × Nat)) :
    (∀ e ∈ clone_channels_user w o rm,
        getCreateRec e = none ∧ isRolesFetchFail e = false) ∧
      Event.fetchChannels o ∈ clone_channels_user w o rm := by
  by_cases hst : w.chansResp.status = 200
  case neg =>
    constructor
    · intro e he
      simp only [clone_channels_user, hst, ne_eq, not_false_eq_true, if_true,
        List.mem_cons, List.mem_singleton, List.not_mem_nil, or_false] at he
      rcases he with he | he
      · subst he; exact ⟨rfl, rfl⟩
      · subst he; exact ⟨rfl, rfl⟩
    · simp [clone_channels_user, hst]
  case pos =>
    have hcat := catsLoop_events_shape w.catOutcome rm
      (List.insertionSort chanLE w.chansResp.data) 0
    have hchan := chansLoop_events_shape w.chanOutcome rm
      (catsLoop w.catOutcome rm (List.insertionSort chanLE w.chansResp.data) 0).snd
      (List.insertionSort chanLE w.chansResp.data)
    have htr : clone_channels_user w o rm
        = [Event.fetchChannels o,
           Event.send (Msg.copyingChans (List.insertionSort chanLE w.chansResp.data).length)]
          ++ ((catsLoop w.catOutcome rm (List.insertionSort chanLE w.chansResp.data) 0).fst
            ++ (chansLoop w.chanOutcome rm
                  (catsLoop w.catOutcome rm (List.insertionSort chanLE w.chansResp.data) 0).snd
                  (List.insertionSort chanLE w.chansResp.data)
                ++ [Event.send Msg.chansDone])) := by
      rw [clone_channels_user, if_neg (by simp [hst])]
      simp
    constructor
    · intro e he
      rw [htr] at he
      rcases List.mem_append.mp he with h | h
      · rcases List.mem_cons.mp h with h | h
        · subst h; exact ⟨rfl, rfl⟩
        · rcases List.mem_cons.mp h with h | h
          · subst h; exact ⟨rfl, rfl⟩
          · simp at h
      · rcases List.mem_append.mp h with h | h
        · exact ⟨(hcat e h).2.1, (hcat e h).2.2.1⟩
        · rcases List.mem_append.mp h with h | h
          · exact ⟨(hchan e h).2.1, (hchan e h).2.2.1⟩
          · rcases List.mem_singleton.mp h with rfl
            exact ⟨rfl, rfl⟩
    · rw [htr]
      exact List.mem_append.mpr (Or.inl (List.mem_cons_self _ _))

/-- Concrete clone invocation refuting C1: destination checks pass, the
role fetch fails with status 401, and the channel fetch succeeds with a
single category record. -/
def c1World : CloneWorld :=
  ⟨true, true, ⟨401, []⟩, ⟨200, [⟨10, 4, "General", none, 0, []⟩]⟩,
   fun _ => COutcome.success, fun _ => COutcome.success, fun _ => COutcome.success⟩

/-- C1 counterexample: in the clone invocation c1World the role fetch fails
and its failure is reported, yet a channel fetch and a destination-mutating
category-creation call are still issued afterwards — the clone is not
aborted. -/
theorem clone_abort_counterexample :
    Event.send (Msg.rolesFetchFail 401) ∈ clone_server_user_slash c1World "111" ∧
      Event.fetchChannels "111" ∈ clone_server_user_slash c1World "111" ∧
      Event.createCategory ⟨10, 4, "General", none, 0, []⟩ []
        ∈ clone_server_user_slash c1World "111" := by
  decide

/-- C1 (amended): when the role fetch fails, the failure is reported exactly
once, no role-creation call is issued and the role mapping is empty, but the
clone is not aborted: the orchestrator still issues the channel fetch (and
channel-phase creation proceeds from it). -/
theorem clone_roles_fetch_fail_not_aborting (w : CloneWorld) (o : String)
    (hg : w.guildFound = true) (ha : w.botIsAdmin = true)
    (hs : w.rolesResp.status ≠ 200) :
    (clone_server_user_slash w o).countP isRolesFetchFail = 1 ∧
      (∀ e ∈ clone_server_user_slash w o, getCreateRec e = none) ∧
      (clone_roles_user w o).snd = [] ∧
      Event.fetchChannels o ∈ clone_server_user_slash w o := by
  have hroles : clone_roles_user w o
      = ([Event.fetchRoles o, Event.send (Msg.rolesFetchFail w.rolesResp.status)], []) := by
    rw [clone_roles_user, if_pos hs]
  have hchan := clone_channels_user_no_role_events w o []
  have htrace : clone_server_user_slash w o
      = Event.send Msg.cloneStarting ::
          (Event.fetchRoles o :: Event.send (Msg.rolesFetchFail w.rolesResp.status) ::
            clone_channels_user w o []) ++ [Event.send Msg.cloneDone] := by
    simp [clone_server_user_slash, hg, ha, hroles]
  refine ⟨?_, ?_, ?_, ?_⟩
  · rw [htrace]
    simp only [List.countP_append, List.countP_cons, List.countP_nil]
    have h0 : (clone_channels_user w o []).countP isRolesFetchFail = 0 :=
      List.countP_eq_zero.mpr (fun e he => by simp [(hchan.1 e he).2])
    simp [h0, isRolesFetchFail]
  · intro e he
    rw [htrace] at he
    simp only [List.cons_append, List.mem_cons, List.mem_append,
      List.mem_singleton, List.not_mem_nil, or_false] at he
    rcases he with he | he | he | he | he
    · subst he; rfl
    · subst he; rfl
    · subst he; rfl
    · exact (hchan.1 e he).1
    · subst he; rfl
  · rw [hroles]
  · rw [htrace]
    simp only [List.cons_append, List.mem_cons, List.mem_append,
      List.mem_singleton, List.not_mem_nil, or_false]
    exact Or.inr (Or.inr (Or.inr (Or.inl hchan.2)))

/-- C1 witness for the amended theorem, at the concrete invocation c1World. -/
theorem clone_roles_fetch_fail_not_aborting_witness :
    (clone_server_user_slash c1World "111").countP isRolesFetchFail = 1 ∧
      Event.fetchChannels "111" ∈ clone_server_user_slash c1World "111" :=
  ⟨(clone_roles_fetch_fail_not_aborting c1World "111" rfl rfl (by decide)).1,
   (clone_roles_fetch_fail_not_aborting c1World "111" rfl rfl (by decide)).2.2.2⟩

/-- C3: when the destination precondition check fails (destination guild not
found, or the bot lacks administrator there), the pipeline reports failure
and stops: the trace is a single failure message, containing no read against
the source and no destination-mutating create call. -/
theorem precondition_fail_no_calls (w : CloneWorld) (o : String)
    (h : w.guildFound = false ∨ w.botIsAdmin = false) :
    (∀ e ∈ clone_server_user_slash w o, isReadEvent e = false ∧ isCreateEvent e = false) ∧
      (clone_server_user_slash w o = [Event.send Msg.destNotFound] ∨
        clone_server_user_slash w o = [Event.send Msg.noAdminPerm]) := by
  by_cases hg : w.guildFound = true
  · have hb : w.botIsAdmin = false := by
      rcases h with h | h
      · rw [hg] at h; exact absurd h (by simp)
      · exact h
    have ht : clone_server_user_slash w o = [Event.send Msg.noAdminPerm] := by
      rw [clone_server_user_slash, if_neg (by simp [hg]), if_pos (by simp [hb])]
    refine ⟨?_, Or.inr ht⟩
    intro e he
    rw [ht] at he
    rcases List.mem_singleton.mp he with rfl
    exact ⟨rfl, rfl⟩
  · have hg2 : w.guildFound = false := by
      cases hval : w.guildFound
      · rfl
      · exact absurd hval hg
    have ht : clone_server_user_slash w o = [Event.send Msg.destNotFound] := by
      rw [clone_server_user_slash, if_pos (by simp [hg2])]
    refine ⟨?_, Or.inl ht⟩
    intro e he
    rw [ht] at he
    rcases List.mem_singleton.mp he with rfl
    exact ⟨rfl, rfl⟩

/-- Concrete invocation for the C3 witness: the destination guild is not
found. -/
def c3World : CloneWorld :=
  ⟨false, true, ⟨200, []⟩, ⟨200, []⟩,
   fun _ => COutcome.success, fun _ => COutcome.success, fun _ => COutcome.success⟩

/-- C3 witness: at the concrete invocation c3World the trace is a single
failure message. -/
theorem precondition_fail_no_calls_witness :
    clone_server_user_slash c3World "111" = [Event.send Msg.destNotFound] ∨
      clone_server_user_slash c3World "111" = [Event.send Msg.noAdminPerm] :=
  (precondition_fail_no_calls c3World "111" (Or.inl rfl)).2

/-- C6: the output of map_overwrites has entries only for role-scoped
subjects whose parsed id is present in the role mapping; an entry of type 1
(member) contributes nothing; a role-scoped entry whose subject id is absent
from the mapping (or does not parse as digits) is dropped without any
error. -/
theorem map_overwrites_role_scoped (rm : List (Nat × Nat)) (os : List OverwriteRec) :
    (∀ kv ∈ map_overwrites rm os, ∃ o2 ∈ os, o2.otype = 0 ∧ pyIsDigit o2.oid = true ∧
        lookupMapping rm (pyToNat o2.oid) = some kv.fst) ∧
      (∀ (o2 : OverwriteRec) (os2 : List OverwriteRec), o2.otype = 1 →
        map_overwrites rm (o2 :: os2) = map_overwrites rm os2) ∧
      (∀ (o2 : OverwriteRec) (os2 : List OverwriteRec), o2.otype = 0 →
        lookupMapping rm (pyToNat o2.oid) = none →
        map_overwrites rm (o2 :: os2) = map_overwrites rm os2) := by
  refine ⟨?_, ?_, ?_⟩
  · induction os with
    | nil => intro kv hkv; simp [map_overwrites] at hkv
    | cons o2 os2 ih =>
      intro kv hkv
      by_cases h0 : o2.otype = 0
      · by_cases hd : pyIsDigit o2.oid = true
        · cases hl : lookupMapping rm (pyToNat o2.oid) with
          | some hnd =>
            rw [map_overwrites, if_pos h0, if_pos hd, hl] at hkv
            rcases List.mem_cons.mp hkv with hkv | hkv
            · subst hkv; exact ⟨o2, List.mem_cons_self _ _, h0, hd, hl⟩
            · obtain ⟨o3, ho3, hrest⟩ := ih kv hkv
              exact ⟨o3, List.mem_cons_of_mem _ ho3, hrest⟩
          | none =>
            rw [map_overwrites, if_pos h0, if_pos hd, hl] at hkv
            obtain ⟨o3, ho3, hrest⟩ := ih kv hkv
            exact ⟨o3, List.mem_cons_of_mem _ ho3, hrest⟩
        · rw [map_overwrites, if_pos h0, if_neg hd] at hkv
          obtain ⟨o3, ho3, hrest⟩ := ih kv hkv
          exact ⟨o3, List.mem_cons_of_mem _ ho3, hrest⟩
      · rw [map_overwrites, if_neg h0] at hkv
        obtain ⟨o3, ho3, hrest⟩ := ih kv hkv
        exact ⟨o3, List.mem_cons_of_mem _ ho3, hrest⟩
  · intro o2 os2 h1
    rw [map_overwrites, if_neg (by rw [h1]; exact one_ne_zero)]
  · intro o2 os2 h0 hl
    rw [map_overwrites, if_pos h0]
    by_cases hd : pyIsDigit o2.oid = true
    · rw [if_pos hd, hl]
    · rw [if_neg hd]

/-- C6 witness: a member-scoped entry and an absent role-scoped entry are
both dropped at a concrete mapping and entry list. -/
theorem map_overwrites_role_scoped_witness :
    map_overwrites [(5, 77)] (⟨1, "5", 3, 4⟩ :: [⟨0, "5", 3, 4⟩])
        = map_overwrites [(5, 77)] [⟨0, "5", 3, 4⟩] ∧
      map_overwrites [(5, 77)] (⟨0, "9", 1, 2⟩ :: [])
        = map_overwrites [(5, 77)] [] :=
  ⟨(map_overwrites_role_scoped [(5, 77)] []).2.1 ⟨1, "5", 3, 4⟩ [⟨0, "5", 3, 4⟩] rfl,
   (map_overwrites_role_scoped [(5, 77)] []).2.2 ⟨0, "9", 1, 2⟩ [] rfl (by decide)⟩

/-- C7: a non-category channel of a creatable type whose parent_id does not
parse as an integer, or parses to an id absent from category_mapping, is
still created, with no parent, and the pass continues with no failure
report. -/
theorem channel_dangling_parent_created (out : Nat → COutcome)
    (rm catMap : List (Nat × Nat)) (c : ChanRec) (cs : List ChanRec) (s : String)
    (hp : c.parent_id = some s)
    (habs : pyIntParse s = none ∨
      (∀ i : Int, pyIntParse s = some i →
        catMap.find? (fun p => ((p.fst : Int)) == i) = none))
    (h4 : c.ctype ≠ 4) (hct : creatableType c.ctype = true)
    (hsc : out c.id = COutcome.success) :
    resolveParent catMap c.parent_id = none ∧
      chansLoop out rm catMap (c :: cs)
        = Event.createChannel c none (map_overwrites rm c.overwrites)
            :: chansLoop out rm catMap cs := by
  have hres : resolveParent catMap c.parent_id = none := by
    rw [hp, resolveParent]
    by_cases hemp : s = ""
    · rw [if_pos hemp]
    · rw [if_neg hemp]
      cases hpi : pyIntParse s with
      | none => rfl
      | some i =>
        rcases habs with habs | habs
        · rw [habs] at hpi; exact absurd hpi (by simp)
        · simp [habs i hpi]
  refine ⟨hres, ?_⟩
  rw [chansLoop, if_neg h4, if_pos hct, hsc, hres]

/-- C7 witness: a concrete text channel whose parent_id 99 is absent from
the category mapping is created with no parent. -/
theorem channel_dangling_parent_created_witness :
    chansLoop (fun _ => COutcome.success) [] [(10, 0)]
        [⟨11, 0, "chat", some "99", 1, []⟩]
      = [Event.createChannel ⟨11, 0, "chat", some "99", 1, []⟩ none []] :=
  (channel_dangling_parent_created (fun _ => COutcome.success) [] [(10, 0)]
    ⟨11, 0, "chat", some "99", 1, []⟩ [] "99" rfl
    (Or.inr (by decide)) (by decide) (by decide) rfl).2

/-- Concrete role fetch for the C4 witness: the scenario from the spec, with
a normal role Mod, a managed role Bot, and the @everyone role. -/
def c4World : CloneWorld :=
  ⟨true, true,
   ⟨200, [⟨1, "Mod", 0, 0, false, false, 2, false⟩,
          ⟨2, "Bot", 0, 0, false, false, 3, true⟩,
          ⟨0, "@everyone", 0, 0, false, false, 0, false⟩]⟩,
   ⟨200, []⟩,
   fun _ => COutcome.success, fun _ => COutcome.success, fun _ => COutcome.success⟩

/-- C4 witness: in the spec scenario the managed role Bot (id 2) is never
issued as a create call and its id is not a key of the mapping. -/
theorem clone_roles_user_excluded_witness :
    (∀ r2 : RoleRec,
        Event.createRole r2 ∈ (clone_roles_user c4World "111").fst → r2.id ≠ 2) ∧
      2 ∉ (clone_roles_user c4World "111").snd.map Prod.fst :=
  clone_roles_user_excluded c4World "111" ⟨2, "Bot", 0, 0, false, false, 3, true⟩
    (by decide) (Or.inl rfl) (by decide)

/-- C9: load_presets returns the decoded mapping for well-formed nonempty
persisted content and the empty mapping, without raising, when the file is
missing, empty, or malformed. -/
theorem load_presets_total (jsonLoads : String → Option PresetMap) :
    load_presets jsonLoads none = [] ∧
      load_presets jsonLoads (some "") = [] ∧
      (∀ c : String, jsonLoads c = none → load_presets jsonLoads (some c) = []) ∧
      (∀ (c : String) (m : PresetMap), c ≠ "" → jsonLoads c = some m →
        load_presets jsonLoads (some c) = m) := by
  refine ⟨rfl, rfl, ?_, ?_⟩
  · intro c hc
    rw [load_presets]
    by_cases hemp : c = ""
    · rw [if_pos hemp]
    · rw [if_neg hemp, hc]
  · intro c m hemp hc
    rw [load_presets, if_neg hemp, hc]

/-- Concrete decoder for the C9 witness: content ok decodes to a one-entry
mapping, anything else is malformed. -/
def jsonLoads0 : String → Option PresetMap :=
  fun s => if s = "ok" then some [("staff", [⟨"Mod", 8, "#FF0000"⟩])] else none

/-- C9 witness: load_presets at the concrete decoder, on well-formed content
and on malformed content. -/
theorem load_presets_total_witness :
    load_presets jsonLoads0 (some "ok") = [("staff", [⟨"Mod", 8, "#FF0000"⟩])] ∧
      load_presets jsonLoads0 (some "bad json") = [] :=
  ⟨(load_presets_total jsonLoads0).2.2.2 "ok" [("staff", [⟨"Mod", 8, "#FF0000"⟩])]
      (by decide) rfl,
   (load_presets_total jsonLoads0).2.2.1 "bad json" rfl⟩

/-- C2: running the module top level of bot_limpeza.py raises NameError on
the name bot at the statement bot.run(TOKEN) of line 20; only the 13
statements before it execute, none of which registers a command, although
the module does contain command-registration statements further down. -/
theorem botLimpeza_run_nameError :
    botLimpezaRun.snd = some "bot" ∧
      botLimpezaRun.fst.length = 13 ∧
      (∀ s ∈ botLimpezaRun.fst, s.regCmd = false) ∧
      (∃ s ∈ botLimpezaTopLevel, s.regCmd = true) := by
  decide

/-- C10: building the reorder reason string of criar_cargos_slash reads the
undefined name nome, raising a NameError that the except handler catches as
a reordering failure; the edit_role_positions statement never executes. -/
theorem criarCargos_reorder_always_fails :
    (runStmts criarCargosScope criarCargosReorderBlock).snd = some "nome" ∧
      criarCargosReorderOutcome = (false, false, true) ∧
      (∃ s ∈ criarCargosReorderBlock, s.editCall = true) := by
  decide

end BotModerCT
